import Mathlib

/-!
Shallow embedding of the workflow-builder graph store
(`src/frontend/src/store/workflowStore.ts`) and of the structural
validator described by the specification (the backend validator is not
part of the frontend sources; see `validate` below).

Conventions of the embedding:
* TypeScript objects whose fields may be absent/`undefined` are modelled
  as structures of `Option` fields; the JavaScript object spread
  `{ ...a, ...b }` over a fixed key set becomes a field-wise
  "patch overrides, absent persists" merge (`optOr`).
* JavaScript numbers that the store holds (positions, `temperature`) are
  modelled as `Rat`; integers (`topK`, `strokeWidth`) as `Int`/`Nat`.
* `uuidv4()` is nondeterministic in the source; operations that consume
  a fresh identifier take it as an explicit argument.
* Zustand actions `set({...})` become pure functions
  `WorkflowState → WorkflowState`.
-/

/-- JS `b` in `{ ...a, ...b }` for one key: the patch value overrides
when present, the current value persists when the key is absent. -/
def optOr {α : Type} (patch cur : Option α) : Option α :=
  match patch with
  | some v => some v
  | none => cur

/-- JS falsiness of a nullable string (`null`/`undefined`/`""`). -/
def strFalsy (o : Option String) : Bool :=
  match o with
  | none => true
  | some s => s = ""

/-- JS `o || ''` for a nullable string (used by reactflow `getEdgeId`). -/
def jsOrEmpty (o : Option String) : String :=
  match o with
  | none => ""
  | some s => s

/-- JS `o || 'custom'` (`getWorkflowDefinition`): `null`, `undefined` and
`""` all fall back to `"custom"`. -/
def jsOrCustom (o : Option String) : String :=
  match o with
  | none => "custom"
  | some s => if s = "" then "custom" else s

/-- JS `o || undefined` (`getWorkflowDefinition` on edge handles): the
empty string is collapsed to `undefined`. -/
def jsOrUndef (o : Option String) : Option String :=
  match o with
  | none => none
  | some s => if s = "" then none else some s

/-- `position: { x, y }` of a reactflow node (JS numbers). -/
structure Position where
  x : Rat
  y : Rat
deriving DecidableEq

/-- `NodeConfig` from `src/frontend/src/types/index.ts`: every field is
optional. -/
structure NodeConfig where
  documents : Option (List String) := none
  embeddingModel : Option String := none
  topK : Option Int := none
  provider : Option String := none
  model : Option String := none
  systemPrompt : Option String := none
  temperature : Option Rat := none
  useWebSearch : Option Bool := none
  webSearchProvider : Option String := none
  apiKey : Option String := none
deriving DecidableEq

/-- `CustomNodeData` from `types/index.ts`. The TypeScript interface
declares the fields required, but at runtime `addNode` can produce the
empty object `{}` (spread of `undefined`), so each field is modelled as
optional; `Partial<CustomNodeData>` is then the same type. -/
structure CustomNodeData where
  label : Option String := none
  type : Option String := none
  config : Option NodeConfig := none
deriving DecidableEq

/-- reactflow `Node<CustomNodeData>`, restricted to the fields the store
reads or writes. -/
structure FlowNode where
  id : String
  type : Option String := none
  position : Position
  data : CustomNodeData
deriving DecidableEq

/-- `style: { stroke, strokeWidth }` set by `onConnect`. -/
structure EdgeStyle where
  stroke : String
  strokeWidth : Nat
deriving DecidableEq

/-- reactflow `Edge`, restricted to the fields the store reads or
writes. `id` is optional because `loadWorkflow` can be fed definition
edges that carry no id. -/
structure FlowEdge where
  id : Option String := none
  source : String
  target : String
  sourceHandle : Option String := none
  targetHandle : Option String := none
  type : Option String := none
  animated : Option Bool := none
  style : Option EdgeStyle := none
deriving DecidableEq

/-- reactflow `Connection`: all four fields are `string | null`. -/
structure Connection where
  source : Option String
  target : Option String
  sourceHandle : Option String := none
  targetHandle : Option String := none
deriving DecidableEq

/-- `ValidationError` from `types/index.ts`. -/
structure ValidationError where
  code : String
  message : String
  nodeId : Option String := none
deriving DecidableEq

/-- `WorkflowValidation` from `types/index.ts`. -/
structure WorkflowValidation where
  valid : Bool
  errors : List ValidationError
deriving DecidableEq

/-- `ChatMessage` from `types/index.ts` (timestamp as an abstract tick;
the optional UI `metadata` record is omitted: no store operation reads
or writes it). -/
structure ChatMessage where
  id : String
  role : String
  content : String
  timestamp : Nat
deriving DecidableEq

/-- `Document` from `types/index.ts`. -/
structure Document where
  id : String
  filename : String
  originalFilename : String
  fileSize : Nat
  mimeType : String
  status : String
  chunkCount : Nat
  errorMessage : Option String := none
  createdAt : String
  updatedAt : String
deriving DecidableEq

/-- The node records of the serialized `WorkflowDefinition` returned by
`getWorkflowDefinition`. -/
structure DefNode where
  id : String
  type : String
  position : Position
  data : CustomNodeData
deriving DecidableEq

/-- The edge records of the serialized `WorkflowDefinition`. -/
structure DefEdge where
  source : String
  target : String
  sourceHandle : Option String
  targetHandle : Option String
deriving DecidableEq

/-- `WorkflowDefinition` from `types/index.ts`. -/
structure WorkflowDefinition where
  nodes : List DefNode
  edges : List DefEdge
deriving DecidableEq

/-- The zustand `WorkflowState` (state fields only; the actions are the
functions below). -/
structure WorkflowState where
  nodes : List FlowNode
  edges : List FlowEdge
  selectedNode : Option FlowNode
  isValid : Bool
  validationErrors : List ValidationError
  chatMessages : List ChatMessage
  isChatOpen : Bool
  isExecuting : Bool
  sessionId : String
  documents : List Document
deriving DecidableEq

/-- The initial store state; `sid` stands for the `uuidv4()` session id
generated at store creation. -/
def initialStore (sid : String) : WorkflowState :=
  { nodes := []
    edges := []
    selectedNode := none
    isValid := false
    validationErrors := []
    chatMessages := []
    isChatOpen := false
    isExecuting := false
    sessionId := sid
    documents := [] }

/-- The literal `0.7` as a rational, written as an already-reduced
fraction so that kernel evaluation never has to normalize it. -/
def ratSevenTenths : Rat := ⟨7, 10, by decide, by decide⟩

/-- The literal `0.3` as a rational, written as an already-reduced
fraction. -/
def ratThreeTenths : Rat := ⟨3, 10, by decide, by decide⟩

/-- `defaultNodeData` record from `workflowStore.ts` (lines 75–107);
JS record lookup `defaultNodeData[type]` yields `undefined` = `none`
for an unknown key. `0.7` is `ratSevenTenths`. -/
def defaultNodeData (t : String) : Option CustomNodeData :=
  if t = "userQuery" then
    some { label := some "User Query", type := some "userQuery",
           config := some {} }
  else if t = "knowledgeBase" then
    some { label := some "Knowledge Base", type := some "knowledgeBase",
           config := some { documents := some [],
                            embeddingModel := some "openai",
                            topK := some 5 } }
  else if t = "llmEngine" then
    some { label := some "LLM Engine", type := some "llmEngine",
           config := some { provider := some "openai",
                            model := some "gpt-4o-mini",
                            systemPrompt := some "",
                            temperature := some ratSevenTenths,
                            useWebSearch := some false,
                            webSearchProvider := some "serpapi" } }
  else if t = "output" then
    some { label := some "Output", type := some "output",
           config := some {} }
  else
    none

/-- `addNode(type, position)` (lines 149–160). `newId` is the
`uuidv4()` result. `{ ...defaultNodeData[type] }` is a copy of the
default data, and the spread of `undefined` for an unrecognized `type`
is the empty object. -/
def addNode (t : String) (pos : Position) (newId : String)
    (s : WorkflowState) : WorkflowState :=
  let newNode : FlowNode :=
    { id := newId, type := some "custom", position := pos,
      data := (defaultNodeData t).getD {} }
  { s with nodes := s.nodes ++ [newNode] }

/-- `{ ...node.data.config, ...data.config }`: field-wise merge of the
two config objects over the fixed `NodeConfig` key set. -/
def mergeConfig (cur patch : NodeConfig) : NodeConfig :=
  { documents := optOr patch.documents cur.documents
    embeddingModel := optOr patch.embeddingModel cur.embeddingModel
    topK := optOr patch.topK cur.topK
    provider := optOr patch.provider cur.provider
    model := optOr patch.model cur.model
    systemPrompt := optOr patch.systemPrompt cur.systemPrompt
    temperature := optOr patch.temperature cur.temperature
    useWebSearch := optOr patch.useWebSearch cur.useWebSearch
    webSearchProvider := optOr patch.webSearchProvider cur.webSearchProvider
    apiKey := optOr patch.apiKey cur.apiKey }

/-- `{ ...node.data, ...data, config: { ...node.data.config,
...data.config } }` (line 166): spread merge of the data record, with
`config` always set to the merged config object (the spread of an
absent config is the empty object). -/
def mergeData (cur patch : CustomNodeData) : CustomNodeData :=
  { label := optOr patch.label cur.label
    type := optOr patch.type cur.type
    config := some (mergeConfig (cur.config.getD {}) (patch.config.getD {})) }

/-- `updateNodeData(nodeId, data)` (lines 162–170): map over the node
list, merging the patch into the matching node's data. -/
def updateNodeData (nodeId : String) (patch : CustomNodeData)
    (s : WorkflowState) : WorkflowState :=
  { s with
    nodes := s.nodes.map (fun node =>
      if node.id = nodeId then { node with data := mergeData node.data patch }
      else node) }

/-- `deleteNode(nodeId)` (lines 172–180). -/
def deleteNode (nodeId : String) (s : WorkflowState) : WorkflowState :=
  { s with
    nodes := s.nodes.filter (fun node => node.id != nodeId)
    edges := s.edges.filter (fun edge =>
      edge.source != nodeId && edge.target != nodeId)
    selectedNode :=
      match s.selectedNode with
      | some n => if n.id = nodeId then none else some n
      | none => none }

/-- `selectNode(node)` (lines 182–184). -/
def selectNode (node : Option FlowNode) (s : WorkflowState) : WorkflowState :=
  { s with selectedNode := node }

/-- `setValidation(validation)` (lines 186–191). -/
def setValidation (v : WorkflowValidation) (s : WorkflowState) : WorkflowState :=
  { s with isValid := v.valid, validationErrors := v.errors }

/-- `clearCanvas()` (lines 193–201). -/
def clearCanvas (s : WorkflowState) : WorkflowState :=
  { s with
    nodes := []
    edges := []
    selectedNode := none
    isValid := false
    validationErrors := [] }

/-- `addChatMessage(message)` (lines 207–211). -/
def addChatMessage (m : ChatMessage) (s : WorkflowState) : WorkflowState :=
  { s with chatMessages := s.chatMessages ++ [m] }

/-- `clearChat()` (lines 213–218); `newSid` is the fresh `uuidv4()`. -/
def clearChat (newSid : String) (s : WorkflowState) : WorkflowState :=
  { s with chatMessages := [], sessionId := newSid }

/-- `removeDocument(documentId)` (lines 231–235). -/
def removeDocument (documentId : String) (s : WorkflowState) : WorkflowState :=
  { s with documents := s.documents.filter (fun doc => doc.id != documentId) }

/-- reactflow v11 `getEdgeId({source, sourceHandle, target,
targetHandle})`. -/
def getEdgeId (src tgt : String) (sh th : Option String) : String :=
  "reactflow__edge-" ++ src ++ jsOrEmpty sh ++ "-" ++ tgt ++ jsOrEmpty th

/-- reactflow v11 handle comparison inside `connectionExists`:
`el.h === e.h || (!el.h && !e.h)`. -/
def handlesMatch (a b : Option String) : Bool :=
  a == b || (strFalsy a && strFalsy b)

/-- reactflow v11 `connectionExists(edge, edges)`: an edge with the same
source, target and (falsy-collapsed) handles is already present. -/
def connectionExists (e : FlowEdge) (edges : List FlowEdge) : Bool :=
  edges.any (fun el =>
    el.source == e.source && el.target == e.target &&
    handlesMatch el.sourceHandle e.sourceHandle &&
    handlesMatch el.targetHandle e.targetHandle)

/-- The edge object `onConnect` hands to `addEdge`: the connection's
endpoints and handles plus `type: 'smoothstep'`, `animated: true` and
the stroke style, with the id reactflow generates for a plain
connection. -/
def edgeFromConnection (c : Connection) (src tgt : String) : FlowEdge :=
  { id := some (getEdgeId src tgt c.sourceHandle c.targetHandle)
    source := src
    target := tgt
    sourceHandle := c.sourceHandle
    targetHandle := c.targetHandle
    type := some "smoothstep"
    animated := some true
    style := some { stroke := "#6366f1", strokeWidth := 2 } }

/-- reactflow v11 `addEdge(edgeParams, edges)` specialized to the
connection-shaped params `onConnect` passes: returns `edges` unchanged
when an endpoint is falsy (`null` or `""`) or when the same connection
already exists, and appends the new edge otherwise. -/
def addEdge (c : Connection) (edges : List FlowEdge) : List FlowEdge :=
  match c.source, c.target with
  | some src, some tgt =>
    if src = "" || tgt = "" then edges
    else
      let e := edgeFromConnection c src tgt
      if connectionExists e edges then edges else edges ++ [e]
  | _, _ => edges

/-- `onConnect(connection)` (lines 135–147). -/
def onConnect (c : Connection) (s : WorkflowState) : WorkflowState :=
  { s with edges := addEdge c s.edges }

/-- `getWorkflowDefinition()` (lines 238–255): pure projection of the
node and edge lists into the serialized definition. -/
def getWorkflowDefinition (s : WorkflowState) : WorkflowDefinition :=
  { nodes := s.nodes.map (fun node =>
      { id := node.id
        type := jsOrCustom node.type
        position := node.position
        data := node.data })
    edges := s.edges.map (fun edge =>
      { source := edge.source
        target := edge.target
        sourceHandle := jsOrUndef edge.sourceHandle
        targetHandle := jsOrUndef edge.targetHandle }) }

/-- `getWorkflowDefinition` as a state action: the source body contains
no `set(...)` call, so the action returns the definition together with
the store state it read, unchanged. -/
def getWorkflowDefinitionAct (s : WorkflowState) :
    WorkflowDefinition × WorkflowState :=
  (getWorkflowDefinition s, s)

/-- `loadWorkflow(nodes, edges)` (lines 257–263). -/
def loadWorkflow (nodes : List FlowNode) (edges : List FlowEdge)
    (s : WorkflowState) : WorkflowState :=
  { s with nodes := nodes, edges := edges, selectedNode := none }

/-- A serialized definition node used as a reactflow node again (the
load path feeds the definition records straight back into the store). -/
def defNodeToFlow (n : DefNode) : FlowNode :=
  { id := n.id, type := some n.type, position := n.position, data := n.data }

/-- A serialized definition edge used as a reactflow edge again: it
carries no id, type, animation or style. -/
def defEdgeToFlow (e : DefEdge) : FlowEdge :=
  { id := none, source := e.source, target := e.target,
    sourceHandle := e.sourceHandle, targetHandle := e.targetHandle }

/-! ## Operation sequences over the store

The four editing operations the referential-integrity claim quantifies
over, as data, so that arbitrary interactive edit sequences can be
reasoned about by induction. `add` carries the `uuidv4()` result. -/

/-- One store mutation of the editable graph. -/
inductive StoreOp where
  | add (t : String) (pos : Position) (newId : String)
  | update (id : String) (patch : CustomNodeData)
  | del (id : String)
  | conn (c : Connection)
deriving DecidableEq

/-- Apply one operation to the store. -/
def applyOp (s : WorkflowState) : StoreOp → WorkflowState
  | .add t pos newId => addNode t pos newId s
  | .update id patch => updateNodeData id patch s
  | .del id => deleteNode id s
  | .conn c => onConnect c s

/-- Apply a sequence of operations, left to right. -/
def applyOps (s : WorkflowState) : List StoreOp → WorkflowState
  | [] => s
  | op :: ops => applyOps (applyOp s op) ops

/-- Does the store currently contain a node with this id? -/
def hasNode (s : WorkflowState) (i : String) : Bool :=
  s.nodes.any (fun n => n.id == i)

/-- Referential integrity: every edge's endpoints are ids of nodes
currently in the store. -/
def edgesConsistent (s : WorkflowState) : Prop :=
  ∀ e ∈ s.edges, hasNode s e.source = true ∧ hasNode s e.target = true

instance (s : WorkflowState) : Decidable (edgesConsistent s) := by
  unfold edgesConsistent; infer_instance

/-- An operation is well-targeted in a state when, if it is a connect,
its non-null endpoints name nodes present in that state (the canvas
only offers handles of rendered nodes, so every UI-generated connect is
well-targeted). -/
def safeOp (s : WorkflowState) : StoreOp → Bool
  | .conn c =>
      (match c.source with
       | some src => hasNode s src
       | none => true) &&
      (match c.target with
       | some tgt => hasNode s tgt
       | none => true)
  | _ => true

/-- Every operation of the sequence is well-targeted in the state it is
applied to. -/
def safeOps (s : WorkflowState) : List StoreOp → Bool
  | [] => true
  | op :: ops => safeOp s op && safeOps (applyOp s op) ops

/-! ## The structural validator

The backend endpoint `POST /workflows/validate` that
`workflowApi.validate` calls is not among the frontend sources, so the
validator is modelled from the specification. -/

/-- Modelled from the spec: node kinds of the validator's input
(§3 Data Model); the workflow's own type strings map onto these as
`userQuery` = Entry, `knowledgeBase` = KnowledgeBase, `llmEngine` =
Generator, `output` = Exit. -/
inductive VKind where
  | entryK
  | knowledgeBaseK
  | generatorK
  | exitK
deriving DecidableEq, BEq

/-- Modelled from the spec: a validator-input node (id and kind are all
the structural rules consult). -/
structure VNode where
  id : String
  kind : VKind
deriving DecidableEq

/-- Modelled from the spec: a validator-input edge. -/
structure VEdge where
  source : String
  target : String
deriving DecidableEq

/-- One expansion step of forward reachability along the edge list. -/
def stepReach (edges : List VEdge) (cur : List String) : List String :=
  cur ++ (((edges.filter (fun e => cur.contains e.source)).map
    (fun e => e.target)).filter (fun t => !cur.contains t))

/-- Iterated reachability expansion with explicit fuel. -/
def reachMany (edges : List VEdge) : Nat → List String → List String
  | 0, cur => cur
  | n + 1, cur => reachMany edges n (stepReach edges cur)

/-- Modelled from the spec: ids reachable from `start` (inclusive)
following edges as directed; fuel `n` suffices for graphs with at most
`n` nodes. -/
def reachableFrom (edges : List VEdge) (start : String) (fuel : Nat) :
    List String :=
  reachMany edges fuel [start]

/-- Modelled from the spec (§4.2 rule 6): a directed cycle exists iff
some node can follow edges from one of its successors back to itself. -/
def cycleExists (nodes : List VNode) (edges : List VEdge) : Bool :=
  nodes.any (fun v =>
    (reachMany edges (nodes.length + 1)
      ((edges.filter (fun e => e.source == v.id)).map (fun e => e.target))
    ).contains v.id)

/-- Modelled from the spec: a validation error with its code; messages
are not prescribed by the spec, so the message repeats the code. -/
def vErr (code : String) (nodeId : Option String) : ValidationError :=
  { code := code, message := code, nodeId := nodeId }

/-- Modelled from the spec (§4.2): `validate(WorkflowDefinition) ->
ValidationResult`. All six rules are checked in one pass, in rule
order; rules 4 and 5 are anchored on the Entry/Exit node and so fire
only when that node exists uniquely; `valid = (errors is empty)`. The
function is total by construction (it never throws). -/
def validate (nodes : List VNode) (edges : List VEdge) : WorkflowValidation :=
  let entries := nodes.filter (fun n => n.kind == VKind.entryK)
  let exits := nodes.filter (fun n => n.kind == VKind.exitK)
  let fuel := nodes.length + 1
  let errs1 : List ValidationError :=
    if entries.length = 0 then [vErr "MISSING_ENTRY" none]
    else if entries.length > 1 then [vErr "MULTIPLE_ENTRY" none]
    else []
  let errs2 : List ValidationError :=
    if exits.length = 0 then [vErr "MISSING_EXIT" none]
    else if exits.length > 1 then [vErr "MULTIPLE_EXIT" none]
    else []
  let errs3 : List ValidationError :=
    if nodes.any (fun n =>
        n.kind == VKind.knowledgeBaseK || n.kind == VKind.generatorK) then []
    else [vErr "NO_PROCESSING_NODE" none]
  let errs4 : List ValidationError :=
    match entries, exits with
    | [en], [ex] =>
      let fwd := reachableFrom edges en.id fuel
      let bwd := reachableFrom (edges.map (fun e =>
        { source := e.target, target := e.source })) ex.id fuel
      (nodes.filter (fun n =>
        !(fwd.contains n.id) || !(bwd.contains n.id))).map
        (fun n => vErr "ORPHAN_NODE" (some n.id))
    | _, _ => []
  let errs5 : List ValidationError :=
    (match exits with
     | [ex] =>
       if edges.any (fun e => e.target == ex.id) then []
       else [vErr "EXIT_NO_INPUT" none]
     | _ => []) ++
    (match entries with
     | [en] =>
       if edges.any (fun e => e.source == en.id) then []
       else [vErr "ENTRY_NO_OUTPUT" none]
     | _ => [])
  let errs6 : List ValidationError :=
    if cycleExists nodes edges then [vErr "CYCLE_DETECTED" none] else []
  let errors := errs1 ++ errs2 ++ errs3 ++ errs4 ++ errs5 ++ errs6
  { valid := errors.isEmpty, errors := errors }

/-! ## Concrete fixtures used by the witnesses and counterexamples -/

/-- A fixed canvas position. -/
def posW : Position := { x := 0, y := 0 }

/-- A concrete llmEngine node with id `"a"`. -/
def nodeA : FlowNode :=
  { id := "a", type := some "custom", position := posW,
    data := (defaultNodeData "llmEngine").getD {} }

/-- A concrete output node with id `"b"`. -/
def nodeB : FlowNode :=
  { id := "b", type := some "custom", position := posW,
    data := (defaultNodeData "output").getD {} }

/-- The canvas connection `"a" → "b"`. -/
def connAB : Connection := { source := some "a", target := some "b" }

/-- The canvas connection `"b" → "a"`. -/
def connBA : Connection := { source := some "b", target := some "a" }

/-- The edge `onConnect` builds for `connAB`. -/
def edgeAB : FlowEdge := edgeFromConnection connAB "a" "b"

/-- A self-loop edge on `"b"`. -/
def edgeBB : FlowEdge :=
  edgeFromConnection { source := some "b", target := some "b" } "b" "b"

/-- A store holding nodes `a`, `b`, edges `a → b` and `b → b`, with
node `a` selected. -/
def storeW : WorkflowState :=
  { initialStore "sid" with
    nodes := [nodeA, nodeB], edges := [edgeAB, edgeBB],
    selectedNode := some nodeA }

/-- A store holding nodes `a`, `b` and no edges. -/
def storeN : WorkflowState :=
  { initialStore "sid" with nodes := [nodeA, nodeB] }

/-- A store holding nodes `a`, `b` and the edge `b → a` (so connecting
`a → b` closes a cycle). -/
def storeCy : WorkflowState :=
  { initialStore "sid" with
    nodes := [nodeA, nodeB],
    edges := [edgeFromConnection connBA "b" "a"] }

/-! ## Claims about the store -/

/-- **C8.** `snapshot()` (`getWorkflowDefinition`, lines 238–255) is a
pure, stable projection: as a state action it returns the store state
it read unchanged (the source body contains no `set(...)` call and no
source of nondeterminism), and a second call on the state left behind
by the first returns the identical `WorkflowDefinition`. -/
theorem getWorkflowDefinition_pure_stable (s : WorkflowState) :
    (getWorkflowDefinitionAct s).2 = s ∧
    (getWorkflowDefinitionAct s).1 =
      (getWorkflowDefinitionAct (getWorkflowDefinitionAct s).2).1 :=
  ⟨rfl, rfl⟩

/-- **C9.** `clearCanvas()` (lines 193–201) resets exactly the canvas
state — nodes, edges, selection, validity flag and validation errors —
and leaves the chat messages, the session id, the `isChatOpen` and
`isExecuting` flags and the document list untouched. -/
theorem clearCanvas_frame (s : WorkflowState) :
    (clearCanvas s).nodes = [] ∧
    (clearCanvas s).edges = [] ∧
    (clearCanvas s).selectedNode = none ∧
    (clearCanvas s).isValid = false ∧
    (clearCanvas s).validationErrors = [] ∧
    (clearCanvas s).chatMessages = s.chatMessages ∧
    (clearCanvas s).sessionId = s.sessionId ∧
    (clearCanvas s).isChatOpen = s.isChatOpen ∧
    (clearCanvas s).isExecuting = s.isExecuting ∧
    (clearCanvas s).documents = s.documents :=
  ⟨rfl, rfl, rfl, rfl, rfl, rfl, rfl, rfl, rfl, rfl⟩

/-- **C10.** `removeDocument(documentId)` (lines 231–235) filters only
the document list: exactly the entries with the given id disappear, and
the node list (hence any `knowledgeBase` node config still naming the
removed document id), edge list, selection, validation and chat state
are untouched. -/
theorem removeDocument_frame (s : WorkflowState) (documentId : String) :
    (removeDocument documentId s).documents =
      s.documents.filter (fun doc => doc.id != documentId) ∧
    (∀ d, d ∈ (removeDocument documentId s).documents ↔
      (d ∈ s.documents ∧ d.id ≠ documentId)) ∧
    (removeDocument documentId s).nodes = s.nodes ∧
    (∀ n, n ∈ (removeDocument documentId s).nodes ↔ n ∈ s.nodes) ∧
    (removeDocument documentId s).edges = s.edges ∧
    (removeDocument documentId s).selectedNode = s.selectedNode ∧
    (removeDocument documentId s).chatMessages = s.chatMessages ∧
    (removeDocument documentId s).sessionId = s.sessionId ∧
    (removeDocument documentId s).isChatOpen = s.isChatOpen ∧
    (removeDocument documentId s).isExecuting = s.isExecuting ∧
    (removeDocument documentId s).isValid = s.isValid ∧
    (removeDocument documentId s).validationErrors = s.validationErrors := by
  refine ⟨rfl, ?_, rfl, fun n => Iff.rfl, rfl, rfl, rfl, rfl, rfl, rfl, rfl, rfl⟩
  intro d
  simp [removeDocument, List.mem_filter]

/-- Closed instance of `removeDocument_frame`: removing document
`"d1"` from a store whose `knowledgeBase`-style node still references
it keeps the node list (and the dangling reference) intact. -/
theorem removeDocument_frame_witness :
    ((removeDocument "d1" storeW).documents =
      storeW.documents.filter (fun doc => doc.id != "d1")) ∧
    ((removeDocument "d1" storeW).nodes = storeW.nodes) ∧
    ((removeDocument "d1" storeW).chatMessages = storeW.chatMessages) := by
  have h := removeDocument_frame storeW "d1"
  exact ⟨h.1, h.2.2.1, h.2.2.2.2.2.2.1⟩

/-! ## Claim about the validator (modelled from the spec) -/

/-- **C6.** `validate` on the empty definition returns `valid = false`
with exactly the errors `MISSING_ENTRY`, `MISSING_EXIT` and
`NO_PROCESSING_NODE`, in rule order, and no cycle or orphan codes; the
function is total (the embedding is a total Lean function, so it never
throws on any well-typed input). -/
theorem validate_empty_exact :
    (validate [] []).valid = false ∧
    (validate [] []).errors.map (fun e => e.code) =
      ["MISSING_ENTRY", "MISSING_EXIT", "NO_PROCESSING_NODE"] ∧
    ((validate [] []).errors.all (fun e =>
      e.code != "CYCLE_DETECTED" && e.code != "ORPHAN_NODE")) = true := by
  refine ⟨rfl, rfl, rfl⟩

/-- **C1.** `deleteNode(id)` (lines 172–180): a node survives iff its id
differs from the deleted one; an edge survives iff neither endpoint is
the deleted id; the subsequent snapshot contains no edge referencing the
deleted id; the selection is cleared exactly when the selected node was
the deleted one; chat, session, documents and the modal flags are
untouched. -/
theorem deleteNode_spec (s : WorkflowState) (nodeId : String) :
    (∀ n, n ∈ (deleteNode nodeId s).nodes ↔ (n ∈ s.nodes ∧ n.id ≠ nodeId)) ∧
    (∀ e, e ∈ (deleteNode nodeId s).edges ↔
      (e ∈ s.edges ∧ e.source ≠ nodeId ∧ e.target ≠ nodeId)) ∧
    ((getWorkflowDefinition (deleteNode nodeId s)).edges.all (fun e =>
      e.source != nodeId && e.target != nodeId)) = true ∧
    ((deleteNode nodeId s).selectedNode =
      match s.selectedNode with
      | some n => if n.id = nodeId then none else some n
      | none => none) ∧
    (deleteNode nodeId s).chatMessages = s.chatMessages ∧
    (deleteNode nodeId s).sessionId = s.sessionId ∧
    (deleteNode nodeId s).documents = s.documents ∧
    (deleteNode nodeId s).isChatOpen = s.isChatOpen ∧
    (deleteNode nodeId s).isExecuting = s.isExecuting := by
  refine ⟨?_, ?_, ?_, rfl, rfl, rfl, rfl, rfl, rfl⟩
  · intro n
    simp [deleteNode, List.mem_filter]
  · intro e
    simp [deleteNode, List.mem_filter]
  · simp only [getWorkflowDefinition, List.all_eq_true, List.mem_map]
    rintro e' ⟨e, he, rfl⟩
    simp only [deleteNode, List.mem_filter, Bool.and_eq_true, bne_iff_ne,
      ne_eq] at he
    simp [he.2.1, he.2.2]

/-- Closed instance of `deleteNode_spec`: deleting node `"a"` from
`storeW` keeps the self-loop on `"b"` and node `"b"`, clears the
selection (node `"a"` was selected), and leaves the documents alone. -/
theorem deleteNode_spec_witness :
    (edgeBB ∈ (deleteNode "a" storeW).edges) ∧
    (nodeB ∈ (deleteNode "a" storeW).nodes) ∧
    ((deleteNode "a" storeW).selectedNode = none) ∧
    ((deleteNode "a" storeW).documents = storeW.documents) := by
  obtain ⟨h1, h2, h3, h4, h5, h6, h7, h8, h9⟩ := deleteNode_spec storeW "a"
  refine ⟨(h2 edgeBB).mpr ⟨by decide, by decide, by decide⟩,
    (h1 nodeB).mpr ⟨by decide, by decide⟩, ?_, h7⟩
  rw [h4]
  decide

/-- `jsOrCustom` is idempotent under re-wrapping: the serialized node
type is never the empty string, so serializing it again yields the same
string. -/
theorem jsOrCustom_idem (o : Option String) :
    jsOrCustom (some (jsOrCustom o)) = jsOrCustom o := by
  cases o with
  | none => rfl
  | some s =>
    by_cases h : s = ""
    · subst h; rfl
    · simp [jsOrCustom, h]

/-- `jsOrUndef` is idempotent: a serialized handle is `none` or a
non-empty string, and serializing it again changes nothing. -/
theorem jsOrUndef_idem (o : Option String) :
    jsOrUndef (jsOrUndef o) = jsOrUndef o := by
  cases o with
  | none => rfl
  | some s =>
    by_cases h : s = ""
    · simp [jsOrUndef, h]
    · simp [jsOrUndef, h]

/-- Pointwise-equal functions map lists equally. -/
theorem map_eq_of_eq {α β : Type} (f g : α → β) (h : ∀ a, f a = g a)
    (l : List α) : l.map f = l.map g := by
  rw [show f = g from funext h]

/-- **C7.** Round-trip: feeding the nodes and edges of `snapshot()`
(`getWorkflowDefinition`) back into any store through `loadWorkflow`
(lines 257–263) and snapshotting again yields a `WorkflowDefinition`
structurally equal to the original — node ids, types, positions, data,
and edge endpoints with their slots are all preserved. -/
theorem loadWorkflow_roundtrip (s sDst : WorkflowState) :
    getWorkflowDefinition
      (loadWorkflow ((getWorkflowDefinition s).nodes.map defNodeToFlow)
        ((getWorkflowDefinition s).edges.map defEdgeToFlow) sDst) =
    getWorkflowDefinition s := by
  simp only [getWorkflowDefinition, loadWorkflow, List.map_map,
    WorkflowDefinition.mk.injEq]
  constructor
  · refine map_eq_of_eq _ _ (fun n => ?_) s.nodes
    simp [Function.comp, defNodeToFlow, jsOrCustom_idem]
  · refine map_eq_of_eq _ _ (fun e => ?_) s.edges
    simp [Function.comp, defEdgeToFlow, jsOrUndef_idem]

/-- Closed instance of `loadWorkflow_roundtrip` at the concrete store
`storeW`, loaded back into a fresh store. -/
theorem loadWorkflow_roundtrip_witness :
    getWorkflowDefinition
      (loadWorkflow ((getWorkflowDefinition storeW).nodes.map defNodeToFlow)
        ((getWorkflowDefinition storeW).edges.map defEdgeToFlow)
        (initialStore "other")) =
    getWorkflowDefinition storeW :=
  loadWorkflow_roundtrip storeW (initialStore "other")

/-- If a node with the patched id is in the store, its merged image is
in the updated store. -/
theorem mem_updateNodeData_of_mem (s : WorkflowState) (nodeId : String)
    (patch : CustomNodeData) (n : FlowNode) (hn : n ∈ s.nodes)
    (hid : n.id = nodeId) :
    { n with data := mergeData n.data patch } ∈
      (updateNodeData nodeId patch s).nodes := by
  have hm := List.mem_map_of_mem (fun node =>
    if node.id = nodeId then { node with data := mergeData node.data patch }
    else node) hn
  have hm2 : (if n.id = nodeId then
      { n with data := mergeData n.data patch } else n) ∈
      (updateNodeData nodeId patch s).nodes := hm
  rw [if_pos hid] at hm2
  exact hm2

/-- **C2.** `updateNodeData(id, data)` (lines 162–170): when no node
carries the id the store is returned unchanged (no error is raised —
the embedding is total); when a node carries the id, the updated node's
label is the patch's label if given and the old label otherwise, and
its config is the field-by-field merge `mergeConfig` (patch keys
override, omitted keys persist); consequently patching
`{config: {temperature: t}}` and then `{config: {topK: k}}` leaves both
fields set simultaneously. -/
theorem updateNodeData_spec (s : WorkflowState) (nodeId : String)
    (patch : CustomNodeData) :
    ((∀ n ∈ s.nodes, n.id ≠ nodeId) → updateNodeData nodeId patch s = s) ∧
    (∀ n ∈ s.nodes, n.id = nodeId →
      ∃ n' ∈ (updateNodeData nodeId patch s).nodes,
        n'.id = nodeId ∧
        n'.data.label = optOr patch.label n.data.label ∧
        n'.data.config =
          some (mergeConfig (n.data.config.getD {}) (patch.config.getD {}))) ∧
    (∀ (t : Rat) (k : Int), ∀ n ∈ s.nodes, n.id = nodeId →
      ∃ n' ∈ (updateNodeData nodeId { config := some { topK := some k } }
          (updateNodeData nodeId { config := some { temperature := some t } }
            s)).nodes,
        n'.id = nodeId ∧
        (n'.data.config.getD {}).temperature = some t ∧
        (n'.data.config.getD {}).topK = some k) := by
  refine ⟨?_, ?_, ?_⟩
  · intro h
    have hmap : s.nodes.map (fun node =>
        if node.id = nodeId then { node with data := mergeData node.data patch }
        else node) = s.nodes := by
      conv_rhs => rw [← List.map_id s.nodes]
      refine List.map_congr_left (fun n hn => ?_)
      simp [h n hn]
    simp only [updateNodeData, hmap]
  · intro n hn hid
    exact ⟨{ n with data := mergeData n.data patch },
      mem_updateNodeData_of_mem s nodeId patch n hn hid, hid, rfl, rfl⟩
  · intro t k n hn hid
    have hm1 := mem_updateNodeData_of_mem s nodeId
      { config := some { temperature := some t } } n hn hid
    have hm2 := mem_updateNodeData_of_mem
      (updateNodeData nodeId { config := some { temperature := some t } } s)
      nodeId { config := some { topK := some k } } _ hm1 hid
    exact ⟨_, hm2, hid, rfl, rfl⟩

/-- Closed instance of `updateNodeData_spec`: patching a missing id
`"zz"` leaves `storeN` unchanged, and patching node `"a"` first with
`temperature = 3/10` and then with `topK = 5` leaves a node carrying
both fields. -/
theorem updateNodeData_spec_witness :
    (updateNodeData "zz" { label := some "x" } storeN = storeN) ∧
    (∃ n' ∈ (updateNodeData "a" { config := some { topK := some 5 } }
        (updateNodeData "a"
          { config := some { temperature := some ratThreeTenths } }
          storeN)).nodes,
      n'.id = "a" ∧
      (n'.data.config.getD {}).temperature = some ratThreeTenths ∧
      (n'.data.config.getD {}).topK = some 5) := by
  refine ⟨(updateNodeData_spec storeN "zz" { label := some "x" }).1
      (by decide), ?_⟩
  exact (updateNodeData_spec storeN "a"
    { config := some { temperature := some ratThreeTenths } }).2.2
    ratThreeTenths 5 nodeA (by decide) (by decide)

/-- **C4 (amended).** `addNode(type, position)` (lines 149–160) appends
exactly one node in every case. The recognized kinds are exactly
`userQuery`, `knowledgeBase`, `llmEngine` and `output`, and for them
the appended node carries that kind's default data; for an unrecognized
kind the call does **not** fail: the spread of `undefined` makes the
appended node's data the empty object. Edges and selection are
untouched. -/
theorem addNode_spec (s : WorkflowState) (t : String) (pos : Position)
    (newId : String) :
    ((addNode t pos newId s).nodes.length = s.nodes.length + 1) ∧
    (((defaultNodeData t).isSome = true) ↔
      (t = "userQuery" ∨ t = "knowledgeBase" ∨ t = "llmEngine" ∨
        t = "output")) ∧
    (∀ d, defaultNodeData t = some d →
      (addNode t pos newId s).nodes =
        s.nodes ++
          [{ id := newId, type := some "custom", position := pos,
             data := d }]) ∧
    (defaultNodeData t = none →
      (addNode t pos newId s).nodes =
        s.nodes ++
          [{ id := newId, type := some "custom", position := pos,
             data := {} }]) ∧
    ((addNode t pos newId s).edges = s.edges) ∧
    ((addNode t pos newId s).selectedNode = s.selectedNode) := by
  refine ⟨by simp [addNode], ?_, ?_, ?_, rfl, rfl⟩
  · unfold defaultNodeData
    split_ifs <;> simp_all
  · intro d hd
    simp [addNode, hd]
  · intro hd
    simp [addNode, hd]

/-- Closed instance of `addNode_spec`: dropping a `userQuery` component
on the empty canvas appends exactly the default user-query node, and
dropping the unrecognized kind `"webScraper"` still appends one node,
whose data is the empty object. -/
theorem addNode_spec_witness :
    ((addNode "userQuery" posW "n1" (initialStore "sid")).nodes =
      (initialStore "sid").nodes ++
        [{ id := "n1", type := some "custom", position := posW,
           data := { label := some "User Query", type := some "userQuery",
                     config := some {} } }]) ∧
    ((addNode "webScraper" posW "n2" (initialStore "sid")).nodes =
      (initialStore "sid").nodes ++
        [{ id := "n2", type := some "custom", position := posW,
           data := {} }]) ∧
    ((addNode "webScraper" posW "n2" (initialStore "sid")).nodes.length =
      (initialStore "sid").nodes.length + 1) := by
  refine ⟨(addNode_spec (initialStore "sid") "userQuery" posW "n1").2.2.1
      _ (by decide), ?_, (addNode_spec (initialStore "sid") "webScraper"
      posW "n2").1⟩
  exact (addNode_spec (initialStore "sid") "webScraper" posW "n2").2.2.2.1
    (by decide)

/-- **C4 counterexample.** The claim says an unrecognized kind "fails
rather than adding a node". On the code, `addNode("webScraper", ...)`
adds a node (the node count grows from 0 to 1), with the empty object
as its data, even though `"webScraper"` is not a recognized kind. -/
theorem addNode_unrecognized_adds_node :
    defaultNodeData "webScraper" = none ∧
    ¬ ((addNode "webScraper" posW "n1" (initialStore "sid")).nodes.length =
        (initialStore "sid").nodes.length) ∧
    (addNode "webScraper" posW "n1" (initialStore "sid")).nodes =
      [{ id := "n1", type := some "custom", position := posW,
         data := {} }] := by
  refine ⟨rfl, by decide, rfl⟩

/-- **C5 (amended).** `connect` (`onConnect`, lines 135–147, through
reactflow's `addEdge`): when the connection's endpoints are non-null
and non-empty and no edge with the same source, target and handles is
already present, the new edge is appended (edge count grows by exactly
one) — in particular a cycle-closing connection is appended, since the
store performs no cycle check — and the node collection is unchanged.
(A duplicate of an existing connection, by contrast, leaves the edge
list unchanged; see the counterexample.) -/
theorem onConnect_spec (s : WorkflowState) (c : Connection)
    (src tgt : String) (hs : c.source = some src) (hsne : src ≠ "")
    (ht : c.target = some tgt) (htne : tgt ≠ "")
    (hdup : connectionExists (edgeFromConnection c src tgt) s.edges = false) :
    (onConnect c s).edges = s.edges ++ [edgeFromConnection c src tgt] ∧
    (onConnect c s).edges.length = s.edges.length + 1 ∧
    (onConnect c s).nodes = s.nodes := by
  have he : (onConnect c s).edges = s.edges ++ [edgeFromConnection c src tgt] := by
    simp only [onConnect, addEdge, hs, ht]
    simp [hsne, htne, hdup]
  exact ⟨he, by rw [he]; simp, rfl⟩

/-- Closed instance of `onConnect_spec`: in `storeCy` the edge
`b → a` already exists, and connecting `a → b` — which closes a cycle —
still appends the edge and grows the count from 1 to 2. -/
theorem onConnect_spec_witness :
    (onConnect connAB storeCy).edges =
      storeCy.edges ++ [edgeFromConnection connAB "a" "b"] ∧
    (onConnect connAB storeCy).edges.length = storeCy.edges.length + 1 ∧
    (onConnect connAB storeCy).nodes = storeCy.nodes :=
  onConnect_spec storeCy connAB "a" "b" rfl (by decide) rfl (by decide)
    (by decide)

/-- **C5 counterexample.** The claim says `connect` *always* appends,
"even when it duplicates an existing edge", so the count after a second
identical `connect` should be the count before plus one. On the code,
reactflow's `addEdge` drops the duplicate connection: connecting
`a → b` twice on a store with nodes `a`, `b` leaves the edge count at
1, not 2. -/
theorem onConnect_duplicate_not_appended :
    ¬ ((onConnect connAB (onConnect connAB storeN)).edges.length =
        (onConnect connAB storeN).edges.length + 1) := by
  decide

/-- Any id present before `addNode` is present after it. -/
theorem hasNode_addNode_of_hasNode (s : WorkflowState) (t : String)
    (pos : Position) (newId : String) (x : String)
    (h : hasNode s x = true) : hasNode (addNode t pos newId s) x = true := by
  simp only [hasNode, addNode, List.any_append, Bool.or_eq_true]
  exact Or.inl h

/-- Mapping a node list through an id-preserving function does not
change which ids are present. -/
theorem any_id_map (l : List FlowNode) (f : FlowNode → FlowNode)
    (hf : ∀ n, (f n).id = n.id) (x : String) :
    (l.map f).any (fun n => n.id == x) = l.any (fun n => n.id == x) := by
  induction l with
  | nil => rfl
  | cons a as ih => simp [hf, ih]

/-- `updateNodeData` preserves the set of node ids. -/
theorem hasNode_updateNodeData (s : WorkflowState) (nodeId : String)
    (patch : CustomNodeData) (x : String) :
    hasNode (updateNodeData nodeId patch s) x = hasNode s x := by
  refine any_id_map s.nodes _ (fun n => ?_) x
  by_cases h : n.id = nodeId <;> simp [h]

/-- Membership in the edge list produced by `addEdge`: an edge is an old
edge, or it is the freshly built connection edge, in which case the
connection's endpoints were non-null. -/
theorem mem_addEdge (c : Connection) (edges : List FlowEdge) (e : FlowEdge)
    (he : e ∈ addEdge c edges) :
    e ∈ edges ∨ ∃ src tgt, c.source = some src ∧ c.target = some tgt ∧
      e = edgeFromConnection c src tgt := by
  unfold addEdge at he
  cases hcs : c.source with
  | none => rw [hcs] at he; exact Or.inl he
  | some src =>
    cases hct : c.target with
    | none => rw [hcs, hct] at he; exact Or.inl he
    | some tgt =>
      rw [hcs, hct] at he
      have he2 : e ∈ (if (src = "" || tgt = "" : Bool) then edges
          else if connectionExists (edgeFromConnection c src tgt) edges then
            edges
          else edges ++ [edgeFromConnection c src tgt]) := he
      by_cases hemp : (src = "" || tgt = "" : Bool)
      · rw [if_pos hemp] at he2; exact Or.inl he2
      · rw [if_neg hemp] at he2
        by_cases hdup : connectionExists (edgeFromConnection c src tgt) edges
        · rw [if_pos hdup] at he2; exact Or.inl he2
        · rw [if_neg hdup] at he2
          rcases List.mem_append.mp he2 with h | h
          · exact Or.inl h
          · exact Or.inr ⟨src, tgt, rfl, rfl, List.mem_singleton.mp h⟩

/-- One well-targeted operation preserves referential integrity. -/
theorem applyOp_consistent (s : WorkflowState) (op : StoreOp)
    (h : edgesConsistent s) (hop : safeOp s op = true) :
    edgesConsistent (applyOp s op) := by
  cases op with
  | add t pos newId =>
    intro e he
    obtain ⟨hsrc, htgt⟩ := h e he
    exact ⟨hasNode_addNode_of_hasNode s t pos newId e.source hsrc,
      hasNode_addNode_of_hasNode s t pos newId e.target htgt⟩
  | update nodeId patch =>
    intro e he
    have he2 : e ∈ s.edges := he
    obtain ⟨hsrc, htgt⟩ := h e he2
    constructor
    · show hasNode (updateNodeData nodeId patch s) e.source = true
      rw [hasNode_updateNodeData]
      exact hsrc
    · show hasNode (updateNodeData nodeId patch s) e.target = true
      rw [hasNode_updateNodeData]
      exact htgt
  | del nodeId =>
    intro e he
    simp only [applyOp, deleteNode, List.mem_filter, Bool.and_eq_true,
      bne_iff_ne, ne_eq] at he
    obtain ⟨hmem, hsne, htne⟩ := he
    obtain ⟨hsrc, htgt⟩ := h e hmem
    constructor
    · simp only [hasNode, deleteNode, List.any_eq_true, beq_iff_eq] at hsrc ⊢
      obtain ⟨n, hn, hnid⟩ := hsrc
      refine ⟨n, List.mem_filter.mpr ⟨hn, ?_⟩, hnid⟩
      simp [hnid, hsne]
    · simp only [hasNode, deleteNode, List.any_eq_true, beq_iff_eq] at htgt ⊢
      obtain ⟨n, hn, hnid⟩ := htgt
      refine ⟨n, List.mem_filter.mpr ⟨hn, ?_⟩, hnid⟩
      simp [hnid, htne]
  | conn c =>
    intro e he
    rcases mem_addEdge c s.edges e he with hold | ⟨src, tgt, hcs, hct, rfl⟩
    · exact h e hold
    · simp only [safeOp, hcs, hct, Bool.and_eq_true] at hop
      exact ⟨hop.1, hop.2⟩

/-- Well-targeted sequences preserve referential integrity from any
consistent starting state. -/
theorem applyOps_consistent (ops : List StoreOp) :
    ∀ s : WorkflowState, edgesConsistent s → safeOps s ops = true →
      edgesConsistent (applyOps s ops) := by
  induction ops with
  | nil => intro s h _; exact h
  | cons op rest ih =>
    intro s h hsafe
    simp only [safeOps, Bool.and_eq_true] at hsafe
    exact ih (applyOp s op) (applyOp_consistent s op h hsafe.1) hsafe.2

/-- **C3 (amended).** Referential integrity: after any sequence of
`addNode`, `updateNode`, `deleteNode` and `connect` operations starting
from the empty store, *provided each connect's endpoints name nodes
present at the moment of connection* (which is what the canvas
generates — the store itself performs no such check), every edge's
source and target equal the id of some node currently in the store.
`deleteNode`'s cascade and `updateNodeData`'s id preservation carry
the invariant. -/
theorem store_referential_integrity (sid : String) (ops : List StoreOp)
    (hsafe : safeOps (initialStore sid) ops = true) :
    edgesConsistent (applyOps (initialStore sid) ops) := by
  refine applyOps_consistent ops (initialStore sid) ?_ hsafe
  intro e he
  simp [initialStore] at he

/-- Closed instance of `store_referential_integrity`: add `a` and `b`,
connect `a → b`, then delete `a`; the sequence is well-targeted and the
final store satisfies referential integrity. -/
theorem store_referential_integrity_witness :
    safeOps (initialStore "sid")
      [StoreOp.add "userQuery" posW "a", StoreOp.add "output" posW "b",
       StoreOp.conn connAB, StoreOp.del "a"] = true ∧
    edgesConsistent (applyOps (initialStore "sid")
      [StoreOp.add "userQuery" posW "a", StoreOp.add "output" posW "b",
       StoreOp.conn connAB, StoreOp.del "a"]) :=
  ⟨by decide, store_referential_integrity "sid"
    [StoreOp.add "userQuery" posW "a", StoreOp.add "output" posW "b",
     StoreOp.conn connAB, StoreOp.del "a"] (by decide)⟩

/-- **C3 counterexample.** The claim quantifies over *every* sequence
of the four operations, but the store itself never checks a connect's
endpoints: connecting `"a" → "b"` on the empty store appends an edge
whose endpoints name no existing node, so referential integrity fails
after this one-operation sequence. -/
theorem store_referential_integrity_counterexample :
    ¬ edgesConsistent (applyOps (initialStore "sid")
      [StoreOp.conn connAB]) := by
  decide
